import Mathlib

/-!
Verification of the resource-identity and lifetime-tracking core of a
WebGPU-style GPU API implementation (`wgpu-core`): the generational slot
arena (`Storage`), the reserve/commit registration protocol (`Registry`),
and the reference-counting / life-tracking primitives (`RefCount`,
`LifeGuard`).

The definitions below are a shallow embedding of
`src/wgpu-core/src/registry.rs` and `src/wgpu-core/src/lib.rs`:

* machine integers (`u32`, `usize`) become `Nat`, with an explicit
  `% 2 ^ 32` at the one place where `u32` arithmetic could wrap;
* `Result<T, E>` becomes `Except E T`;
* code that can panic or hit undefined behaviour returns `Option`
  (`none` models an abort / UB, which never yields a value);
* the raw uninitialized data cells (`DebugMaybeUninit<T>`) become
  `Option T` (`none` = uninitialized), and reading an uninitialized cell
  (`assume_init`) is modelled as `none` at the operation level;
* per-slot mutexes and atomics disappear: operations are modelled as
  pure state transformers, which matches the documented caller-side
  serialization discipline.
-/

namespace WgpuCore

/-- `InvalidId` from `registry.rs`: the classification of a failed
epoch-checked lookup. -/
inductive InvalidId where
  | ResourceInError (index : Nat) (error : String)
  | Vacant (index : Nat)
  | WrongEpoch (index : Nat) (old : Nat) (new : Nat)
  deriving DecidableEq, Repr

/-- `ElementStatus` from `registry.rs`: the tagged state of one arena slot. -/
inductive ElementStatus where
  | Vacant
  | Occupied (epoch : Nat)
  | Error (epoch : Nat) (error : String)
  deriving DecidableEq, Repr

/-- The two distinct abort sites of `Storage::ensure_index`. -/
inductive StoragePanic where
  | assertIndexEqMax
  | tooManyResources
  deriving DecidableEq, Repr

/-- `STORAGE_BLOCK_SIZE` from `registry.rs`. -/
def STORAGE_BLOCK_SIZE : Nat := 32

/-- `StorageBlock<32, T>`: a fixed chunk of data cells with a parallel
status array.  Only arguments `0 ≤ j < 32` are meaningful; `data j = none`
models an uninitialized `DebugMaybeUninit` cell. -/
structure StorageBlock (T : Type) where
  data : Nat → Option T
  status : Nat → ElementStatus

/-- `StorageBlock::new_uninit`: all cells uninitialized, all statuses
`Vacant`. -/
def StorageBlock.new_uninit {T : Type} : StorageBlock T :=
  { data := fun _ => none, status := fun _ => ElementStatus.Vacant }

/-- `Storage<T>`: 256 lazily allocated blocks (`none` = never allocated)
plus the `max_index` high-water mark.  Only block indices `0 ≤ b < 256`
are meaningful. -/
structure Storage (T : Type) where
  blocks : Nat → Option (StorageBlock T)
  max_index : Nat

/-- `Storage::new`. -/
def Storage.new (T : Type) : Storage T :=
  { blocks := fun _ => none, max_index := 0 }

/-- `Storage::ensure_index`: grows the block array when `index` reaches the
high-water mark.  The `assert_eq!(index, max_index)` failure and the
`"Too many resources allocated"` panic are the two `error` outcomes. -/
def Storage.ensure_index {T : Type} (s : Storage T) (index : Nat) :
    Except StoragePanic (Storage T) :=
  if index < s.max_index then Except.ok s
  else if index ≠ s.max_index then Except.error StoragePanic.assertIndexEqMax
  else
    let block := s.max_index / STORAGE_BLOCK_SIZE
    if 256 ≤ block then Except.error StoragePanic.tooManyResources
    else
      -- `(max_index + 31) & !31u32`, in `u32` arithmetic
      let allocated_length :=
        Nat.land ((s.max_index + 31) % 2 ^ 32) (2 ^ 32 - 32)
      let blocks' :=
        if allocated_length ≤ index then
          Function.update s.blocks block (some StorageBlock.new_uninit)
        else s.blocks
      Except.ok { blocks := blocks', max_index := (s.max_index + 1) % 2 ^ 32 }

/-- `Storage::raw_refs`: the bounds check plus the block lookup shared by
all slot accessors.  `none` models the `unwrap` panic on a block that was
never allocated; on success it returns the current contents of the data
cell and the status of the addressed slot. -/
def Storage.raw_refs {T : Type} (s : Storage T) (index : Nat) :
    Option (Except InvalidId (Option T × ElementStatus)) :=
  if s.max_index ≤ index then some (Except.error (InvalidId.Vacant index))
  else
    match s.blocks (index / STORAGE_BLOCK_SIZE) with
    | none => none
    | some b =>
        some (Except.ok
          (b.data (index % STORAGE_BLOCK_SIZE),
           b.status (index % STORAGE_BLOCK_SIZE)))

/-- Rebuild the storage with the block containing `index` transformed by
`f` (the pure counterpart of writing through the cell references that
`raw_refs` returns). -/
def Storage.updateSlot {T : Type} (s : Storage T) (index : Nat)
    (f : StorageBlock T → StorageBlock T) : Storage T :=
  { s with
    blocks :=
      Function.update s.blocks (index / STORAGE_BLOCK_SIZE)
        ((s.blocks (index / STORAGE_BLOCK_SIZE)).map f) }

/-- `Storage::fill`: commits either a constructed value (→ `Occupied`) or a
diagnostic message (→ `Error`) into a reserved slot.  `none` models the UB
of `unwrap_unchecked` when `raw_refs` fails. -/
def Storage.fill {T : Type} (s : Storage T) (index epoch : Nat)
    (value : Except String T) : Option (Storage T) :=
  match s.raw_refs index with
  | none => none
  | some (Except.error _) => none
  | some (Except.ok _) =>
      match value with
      | Except.ok v =>
          some (s.updateSlot index (fun b =>
            { data := Function.update b.data (index % STORAGE_BLOCK_SIZE) (some v),
              status := Function.update b.status (index % STORAGE_BLOCK_SIZE)
                (ElementStatus.Occupied epoch) }))
      | Except.error e =>
          some (s.updateSlot index (fun b =>
            { b with
              status := Function.update b.status (index % STORAGE_BLOCK_SIZE)
                (ElementStatus.Error epoch e) }))

/-- `Storage::contains`: `true` exactly when the slot status is
`Occupied(epoch)`; any `raw_refs` failure is reported as `false`.
`none` models the (status-lock path) panic on an unallocated block. -/
def Storage.contains {T : Type} (s : Storage T) (index epoch : Nat) :
    Option Bool :=
  match s.raw_refs index with
  | none => none
  | some (Except.error _) => some false
  | some (Except.ok (_, status)) =>
      some (decide (status = ElementStatus.Occupied epoch))

/-- `Storage::get`: bounds- and epoch-checked read.  The guarded match arm
`Occupied(se) | Error(se, _) if epoch != se => WrongEpoch` becomes the two
`if epoch ≠ stored` tests; reading an uninitialized cell
(`assume_init_ref`) is `none`. -/
def Storage.get {T : Type} (s : Storage T) (index epoch : Nat) :
    Option (Except InvalidId T) :=
  match s.raw_refs index with
  | none => none
  | some (Except.error e) => some (Except.error e)
  | some (Except.ok (data, status)) =>
      match status with
      | ElementStatus.Occupied stored =>
          if epoch ≠ stored then
            some (Except.error (InvalidId.WrongEpoch index stored epoch))
          else
            match data with
            | some v => some (Except.ok v)
            | none => none
      | ElementStatus.Error stored msg =>
          if epoch ≠ stored then
            some (Except.error (InvalidId.WrongEpoch index stored epoch))
          else some (Except.error (InvalidId.ResourceInError index msg))
      | ElementStatus.Vacant =>
          some (Except.error (InvalidId.Vacant index))

/-- `Storage::free`: sets the status to `Vacant`, asserts the old status
was `Occupied(epoch)` (the `assert_eq!` abort is `none`), and moves the
value out of the cell.  On a `raw_refs` failure the storage is unchanged
and the error is returned. -/
def Storage.free {T : Type} (s : Storage T) (index epoch : Nat) :
    Option (Except InvalidId (T × Storage T)) :=
  match s.raw_refs index with
  | none => none
  | some (Except.error e) => some (Except.error e)
  | some (Except.ok (data, status)) =>
      if status ≠ ElementStatus.Occupied epoch then none
      else
        match data with
        | none => none
        | some v =>
            some (Except.ok (v,
              s.updateSlot index (fun b =>
                { data := Function.update b.data (index % STORAGE_BLOCK_SIZE) none,
                  status := Function.update b.status (index % STORAGE_BLOCK_SIZE)
                    ElementStatus.Vacant })))

/-- Current status of the slot at `index` (through the block array),
ignoring the high-water mark. -/
def Storage.slotStatus {T : Type} (s : Storage T) (index : Nat) :
    Option ElementStatus :=
  (s.blocks (index / STORAGE_BLOCK_SIZE)).map
    (fun b => b.status (index % STORAGE_BLOCK_SIZE))

/-- Current contents of the data cell at `index`. -/
def Storage.slotData {T : Type} (s : Storage T) (index : Nat) : Option T :=
  (s.blocks (index / STORAGE_BLOCK_SIZE)).bind
    (fun b => b.data (index % STORAGE_BLOCK_SIZE))

/-- Well-formedness of one slot below the high-water mark: its block is
allocated and an `Occupied` status implies an initialized data cell.
Every state reachable through the documented reserve/commit/free
discipline satisfies this for all `index < max_index`. -/
def Storage.slotWFb {T : Type} (s : Storage T) (index : Nat) : Bool :=
  match s.blocks (index / STORAGE_BLOCK_SIZE) with
  | none => false
  | some b =>
      match b.status (index % STORAGE_BLOCK_SIZE) with
      | ElementStatus.Occupied _ => (b.data (index % STORAGE_BLOCK_SIZE)).isSome
      | _ => true

/-- Storage well-formedness: every published slot is well-formed. -/
def Storage.WF {T : Type} (s : Storage T) : Prop :=
  ∀ i, i < s.max_index → s.slotWFb i = true

instance {T : Type} (s : Storage T) : Decidable s.WF :=
  Nat.decidableBallLT s.max_index (fun i _ => s.slotWFb i = true)

/-- Modelled from the spec: the Identity Manager (`hub::IdentityManager`,
not part of the provided sources).  Per the spec's collaborator contract,
`allocate` yields a fresh `(index, epoch)` pair, an index is reused only
after being freed, and its epoch strictly increases on every reuse (the
spec's scenario shows the first epoch of an index is `0` and it becomes
`1` on the first reuse).  Recycled pairs are kept in a FIFO free list. -/
structure IdentityManager where
  free_list : List (Nat × Nat)
  next_index : Nat

/-- Modelled from the spec: `allocate(input, backend_tag) -> (index, id)`.
Takes a recycled `(index, epoch)` pair from the free list when one is
available, otherwise mints a fresh index with epoch `0`. -/
def IdentityManager.alloc (m : IdentityManager) :
    (Nat × Nat) × IdentityManager :=
  match m.free_list with
  | [] => ((m.next_index, 0), { m with next_index := m.next_index + 1 })
  | p :: rest => (p, { m with free_list := rest })

/-- Modelled from the spec: `free(identifier) -> (index, epoch)`.  Returns
the pair of the freed identifier and queues the index for reuse at the
next (strictly larger) epoch. -/
def IdentityManager.free (m : IdentityManager) (index epoch : Nat) :
    (Nat × Nat) × IdentityManager :=
  ((index, epoch),
   { m with free_list := m.free_list ++ [(index, epoch + 1)] })

/-- `Registry`: a `Storage` coupled with its Identity Manager. -/
structure Registry (T : Type) where
  storage : Storage T
  identity : IdentityManager

/-- `Registry::new` over an empty identity manager. -/
def Registry.new (T : Type) : Registry T :=
  { storage := Storage.new T,
    identity := { free_list := [], next_index := 0 } }

/-- `Registry::prepare`: allocates an identifier under the identity lock,
ensures storage capacity for its index, and returns the `(index, epoch)`
pair of the resulting `FutureId` reservation. -/
def Registry.prepare {T : Type} (r : Registry T) :
    Except StoragePanic (Registry T × Nat × Nat) :=
  let a := r.identity.alloc
  match r.storage.ensure_index a.1.1 with
  | Except.error p => Except.error p
  | Except.ok s' =>
      Except.ok ({ storage := s', identity := a.2 }, a.1.1, a.1.2)

/-- `FutureId::assign`: commits a constructed value through the
reservation (`fill` with `Ok`). -/
def Registry.assign {T : Type} (r : Registry T) (index epoch : Nat)
    (value : T) : Option (Registry T) :=
  (r.storage.fill index epoch (Except.ok value)).map
    (fun s' => { r with storage := s' })

/-- `FutureId::assign_error`: commits a poisoned state through the
reservation (`fill` with `Err(label)`). -/
def Registry.assign_error {T : Type} (r : Registry T) (index epoch : Nat)
    (label : String) : Option (Registry T) :=
  (r.storage.fill index epoch (Except.error label)).map
    (fun s' => { r with storage := s' })

/-- `Registry::get`. -/
def Registry.get {T : Type} (r : Registry T) (index epoch : Nat) :
    Option (Except InvalidId T) :=
  r.storage.get index epoch

/-- `Registry::contains`. -/
def Registry.contains {T : Type} (r : Registry T) (index epoch : Nat) :
    Option Bool :=
  r.storage.contains index epoch

/-- `Registry::unregister`: frees the identity pair and the storage slot
inside the same identity-lock critical section.  `none` models the abort
inside `Storage::free`. -/
def Registry.unregister {T : Type} (r : Registry T) (index epoch : Nat) :
    Option (Except InvalidId T × Registry T) :=
  let fr := r.identity.free index epoch
  match r.storage.free fr.1.1 fr.1.2 with
  | none => none
  | some (Except.error e) =>
      some (Except.error e, { r with identity := fr.2 })
  | some (Except.ok (v, s')) =>
      some (Except.ok v, { storage := s', identity := fr.2 })

/-- The heap of reference-count cells: each allocated cell is an address
mapped to the current value of its `AtomicUsize`; `next` is the next
fresh address.  A `RefCount` value is the address (`NonNull<AtomicUsize>`
pointer) of its cell. -/
structure RcHeap where
  mem : Nat → Option Nat
  next : Nat

/-- The empty heap. -/
def RcHeap.empty : RcHeap := { mem := fun _ => none, next := 0 }

namespace RefCount

/-- `RefCount::MAX`, the sanity ceiling `1 << 24`. -/
def MAX : Nat := 2 ^ 24

/-- `RefCount::new`: heap-allocates a fresh counter cell holding `1` and
returns its address. -/
def new (h : RcHeap) : Nat × RcHeap :=
  (h.next,
   { mem := Function.update h.mem h.next (some 1), next := h.next + 1 })

/-- `Clone for RefCount`: `fetch_add(1)` on the shared cell followed by
`assert!(old_size < MAX)`.  `none` models either the UB of touching a
freed cell or the assert abort; on success the returned handle is the
same address. -/
def clone (h : RcHeap) (r : Nat) : Option (RcHeap × Nat) :=
  match h.mem r with
  | none => none
  | some old =>
      if old < MAX then
        some ({ h with mem := Function.update h.mem r (some (old + 1)) }, r)
      else none

/-- `Drop for RefCount`: `fetch_sub(1)`; when the old value was `1` the
backing box is freed (the cell disappears from the heap and the returned
flag is `true`).  `none` models the UB of dropping through a freed cell. -/
def drop (h : RcHeap) (r : Nat) : Option (RcHeap × Bool) :=
  match h.mem r with
  | none => none
  | some old =>
      if old = 1 then
        some ({ h with mem := Function.update h.mem r none }, true)
      else
        some ({ h with mem := Function.update h.mem r (some (old - 1)) }, false)

end RefCount

/-- One step of a clone/drop workload on a single `RefCount` family. -/
inductive RcOp where
  | clone
  | drop
  deriving DecidableEq, Repr

/-- Validity of a clone/drop workload given the current number of live
handles: every operation needs a live handle to act on, and a clone must
stay below the sanity ceiling (above it the program aborts). -/
def rcValid : Nat → List RcOp → Bool
  | _, [] => true
  | live, RcOp.clone :: t =>
      decide (0 < live) && decide (live < RefCount.MAX) && rcValid (live + 1) t
  | live, RcOp.drop :: t => decide (0 < live) && rcValid (live - 1) t

/-- The number of live handles after a workload. -/
def rcLiveAfter : Nat → List RcOp → Nat
  | live, [] => live
  | live, RcOp.clone :: t => rcLiveAfter (live + 1) t
  | live, RcOp.drop :: t => rcLiveAfter (live - 1) t

/-- Run a clone/drop workload against the heap, threading the address of
the shared cell and counting how many times the backing box is freed. -/
def rcRun (h : RcHeap) (r : Nat) (frees : Nat) :
    List RcOp → Option (RcHeap × Nat)
  | [] => some (h, frees)
  | RcOp.clone :: t =>
      match RefCount.clone h r with
      | none => none
      | some (h', _) => rcRun h' r frees t
  | RcOp.drop :: t =>
      match RefCount.drop h r with
      | none => none
      | some (h', freed) =>
          rcRun h' r (frees + if freed then 1 else 0) t

/-- `LifeGuard` from `lib.rs`: the optional user `RefCount` (the
`AtomicOptionalRefCount` pointer, `none` = null), the last-submission
index, and the debug label. -/
structure LifeGuard where
  ref_count : Option Nat
  submission_index : Nat
  label : String

/-- `LifeGuard::new`: allocates the user `RefCount` at count 1 and starts
the submission index at 0. -/
def LifeGuard.new (h : RcHeap) (label : String) : LifeGuard × RcHeap :=
  let a := RefCount.new h
  ({ ref_count := some a.1, submission_index := 0, label := label }, a.2)

/-- `LifeGuard::use_at`: stores the submission index, then reports whether
the user `RefCount` pointer is still non-null. -/
def LifeGuard.use_at (lg : LifeGuard) (submit_index : Nat) :
    LifeGuard × Bool :=
  ({ lg with submission_index := submit_index }, lg.ref_count.isSome)

/-- `LifeGuard::life_count`: loads the stored submission index. -/
def LifeGuard.life_count (lg : LifeGuard) : Nat := lg.submission_index

/-- `LifeGuard::add_ref`: `self.ref_count.as_ref_count().unwrap()` — the
held pointer, with `none` modelling the `unwrap` panic after release. -/
def LifeGuard.add_ref (lg : LifeGuard) : Option Nat := lg.ref_count

/-- `AtomicOptionalRefCount::take` (as used by `drop_with_life_guard`):
swaps the pointer for null and hands back the previous contents. -/
def LifeGuard.take (lg : LifeGuard) : Option Nat × LifeGuard :=
  (lg.ref_count, { lg with ref_count := none })

/-- The operations a caller can perform on a `LifeGuard` after creation
(`add_ref` and `life_count` are read-only and do not appear). -/
inductive LgOp where
  | useAt (s : Nat)
  | take
  deriving DecidableEq, Repr

/-- Run a sequence of `LifeGuard` operations. -/
def LifeGuard.runOps (lg : LifeGuard) : List LgOp → LifeGuard
  | [] => lg
  | LgOp.useAt s :: t => ((lg.use_at s).1).runOps t
  | LgOp.take :: t => (lg.take).2.runOps t

/-- Run a sequence of `use_at` calls. -/
def LifeGuard.run_use_at (lg : LifeGuard) : List Nat → LifeGuard
  | [] => lg
  | s :: t => ((lg.use_at s).1).run_use_at t

/-! Concrete traces used by the spec's two scenarios.  Each trace starts
from a fresh registry; a reservation is obtained with `prepare` and
committed with `assign` / `assign_error`. -/

/-- Scenario state after: reserve → `assign("A")`. -/
def c1_reg1 : Option (Registry String) :=
  (Registry.prepare (Registry.new String)).toOption.bind
    (fun a => Registry.assign a.1 a.2.1 a.2.2 "A")

/-- Scenario state after: reserve → `assign("A")` → `unregister(0,0)`. -/
def c1_reg2 : Option (Registry String) :=
  c1_reg1.bind (fun r =>
    (r.unregister 0 0).bind (fun pr =>
      match pr.1 with
      | Except.ok _ => some pr.2
      | Except.error _ => none))

/-- Scenario state after: … → re-reserve index 0 → `assign("B")`. -/
def c1_reg3 : Option (Registry String) :=
  c1_reg2.bind (fun r =>
    (Registry.prepare r).toOption.bind
      (fun a => Registry.assign a.1 a.2.1 a.2.2 "B"))

/-- Poisoning scenario state after: reserve → `assign_error("device lost")`. -/
def c2_reg1 : Option (Registry String) :=
  (Registry.prepare (Registry.new String)).toOption.bind
    (fun a => Registry.assign_error a.1 a.2.1 a.2.2 "device lost")

/-- A storage whose slot 0 is `Occupied(0)` holding `"A"`. -/
def c1_wit_s : Storage String :=
  { blocks := Function.update (fun _ => none) 0 (some
      { data := Function.update (fun _ => none) 0 (some "A"),
        status := Function.update (fun _ => ElementStatus.Vacant) 0
          (ElementStatus.Occupied 0) }),
    max_index := 1 }

/-- A storage whose high-water mark sits exactly at the capacity ceiling. -/
def c4_wit_s8192 : Storage Unit :=
  { blocks := fun _ => none, max_index := 8192 }

/-- A storage with one freshly allocated (all-vacant) block published. -/
def c4_wit_s1 : Storage Unit :=
  { blocks := Function.update (fun _ => none) 0 (some StorageBlock.new_uninit),
    max_index := 1 }

/-- `c4_wit_s1` after one more index is published. -/
def c4_wit_s2 : Storage Unit :=
  { blocks := c4_wit_s1.blocks, max_index := 2 }

/-- A storage with one reserved (still vacant) published slot. -/
def c6_wit_s : Storage String :=
  { blocks := Function.update (fun _ => none) 0 (some StorageBlock.new_uninit),
    max_index := 1 }

/-- A storage whose slot 0 is poisoned: `Error(0, "boom")`. -/
def c9_wit_s : Storage String :=
  { blocks := Function.update (fun _ => none) 0 (some
      { data := fun _ => none,
        status := Function.update (fun _ => ElementStatus.Vacant) 0
          (ElementStatus.Error 0 "boom") }),
    max_index := 1 }

/-- Same shape as `c9_wit_s`, for the epoch-precedence witness. -/
def c10_wit_s : Storage String :=
  { blocks := Function.update (fun _ => none) 0 (some
      { data := fun _ => none,
        status := Function.update (fun _ => ElementStatus.Vacant) 0
          (ElementStatus.Error 0 "boom") }),
    max_index := 1 }

/-- A one-cell heap whose counter holds `1`. -/
def c7_wit_h : RcHeap :=
  { mem := Function.update (fun _ => none) 0 (some 1), next := 1 }

/-- `c7_wit_h` after a successful clone: the counter holds `2`. -/
def c7_wit_h2 : RcHeap :=
  { mem := Function.update (Function.update (fun _ => none) 0 (some 1)) 0
      (some 2),
    next := 1 }

end WgpuCore

namespace WgpuCore

/-! Helper lemmas shared by the claim theorems. -/

/-- The `& !31u32` rounding mask keeps exactly the bits above the block
offset: for `x < 2^32`, `x & (2^32 - 32)` is `x` rounded down to a
multiple of the block size. -/
theorem land_high_bits (x : Nat) (hx : x < 2 ^ 32) :
    Nat.land x (2 ^ 32 - 32) = x / 32 * 32 := by
  show x &&& (2 ^ 32 - 32) = x / 32 * 32
  have hmask : (2 ^ 32 - 32 : Nat) = (2 ^ 27 - 1) <<< 5 := by
    norm_num [Nat.shiftLeft_eq]
  have hdiv : x / 32 * 32 = (x >>> 5) <<< 5 := by
    simp [Nat.shiftLeft_eq, Nat.shiftRight_eq_div_pow]
  apply Nat.eq_of_testBit_eq
  intro j
  rw [Nat.testBit_land, hmask, hdiv]
  simp only [Nat.testBit_shiftLeft, Nat.testBit_shiftRight,
    Nat.testBit_two_pow_sub_one]
  by_cases h5 : 5 ≤ j
  · have hj : 5 + (j - 5) = j := by omega
    rw [hj]
    by_cases h32 : j < 32
    · have hj27 : j - 5 < 27 := by omega
      simp [h5, hj27, Bool.and_comm]
    · have hfalse : Nat.testBit x j = false :=
        Nat.testBit_eq_false_of_lt
          (lt_of_lt_of_le hx (Nat.pow_le_pow_right (by norm_num) (by omega)))
      have hj27 : ¬ (j - 5 < 27) := by omega
      simp [hfalse, h5, hj27]
  · have hge : ¬ (j ≥ 5) := h5
    simp [hge]

/-- When `ensure_index` finds its rounded-up allocated length at or below
the current `max_index`, that mark is a block boundary. -/
theorem allocated_length_le_imp (m : Nat) (hm : m < 8192)
    (h : Nat.land ((m + 31) % 2 ^ 32) (2 ^ 32 - 32) ≤ m) : m % 32 = 0 := by
  have hmod : (m + 31) % 2 ^ 32 = m + 31 := Nat.mod_eq_of_lt (by omega)
  rw [hmod, land_high_bits _ (by omega)] at h
  have hd := Nat.div_add_mod (m + 31) 32
  omega

/-- A well-formed storage has a block allocated under every published
index. -/
theorem Storage.WF.block_some {T : Type} {s : Storage T} (hwf : s.WF)
    {i : Nat} (hl : i < s.max_index) :
    ∃ b, s.blocks (i / STORAGE_BLOCK_SIZE) = some b := by
  have h := hwf i hl
  unfold Storage.slotWFb at h
  rcases hblk : s.blocks (i / STORAGE_BLOCK_SIZE) with _ | b
  · rw [hblk] at h
    simp at h
  · exact ⟨b, rfl⟩

/-- In a well-formed storage, an `Occupied` published slot has an
initialized data cell. -/
theorem Storage.WF.data_some {T : Type} {s : Storage T} (hwf : s.WF)
    {i : Nat} (hl : i < s.max_index) {b : StorageBlock T}
    (hblk : s.blocks (i / STORAGE_BLOCK_SIZE) = some b) {e : Nat}
    (hst : b.status (i % STORAGE_BLOCK_SIZE) = ElementStatus.Occupied e) :
    ∃ v, b.data (i % STORAGE_BLOCK_SIZE) = some v := by
  have h := hwf i hl
  unfold Storage.slotWFb at h
  rw [hblk] at h
  dsimp only at h
  rw [hst] at h
  exact Option.isSome_iff_exists.mp h

/-- Claim C1: `get(index, epoch)` returns `Ok` with the stored value
exactly when the published slot at that index is currently
`Occupied(epoch)`; it returns `WrongEpoch{old, new}` exactly when the slot
currently holds a different epoch `old` (occupied or poisoned) with
`new` the presented epoch; it returns `Vacant` exactly when the index is
beyond the high-water mark or the slot status is `Vacant` — and the
spec's concrete reserve/assign/free trace holds: after reserving (0,0)
and assigning "A", `get(0,0) = Ok "A"`; after `unregister(0,0)`,
`get(0,0) = Vacant`; re-reserving yields epoch 1, and after assigning
"B", `get(0,0) = WrongEpoch{old 1, new 0}` and `get(0,1) = Ok "B"`. -/
theorem c1_get_epoch_classification :
    (∀ (T : Type) (s : Storage T) (i e : Nat),
      (∀ v : T, s.get i e = some (Except.ok v) ↔
         i < s.max_index ∧ s.slotStatus i = some (ElementStatus.Occupied e) ∧
           s.slotData i = some v)
      ∧ (∀ old, s.get i e = some (Except.error (InvalidId.WrongEpoch i old e)) ↔
         i < s.max_index ∧ e ≠ old ∧
           (s.slotStatus i = some (ElementStatus.Occupied old) ∨
            ∃ m, s.slotStatus i = some (ElementStatus.Error old m)))
      ∧ (s.get i e = some (Except.error (InvalidId.Vacant i)) ↔
         s.max_index ≤ i ∨
           (i < s.max_index ∧ s.slotStatus i = some ElementStatus.Vacant)))
    ∧ (Registry.prepare (Registry.new String)).toOption.map (fun a => a.2) =
        some (0, 0)
    ∧ c1_reg1.bind (fun r => r.get 0 0) = some (Except.ok "A")
    ∧ c1_reg2.bind (fun r => r.get 0 0) =
        some (Except.error (InvalidId.Vacant 0))
    ∧ c1_reg2.bind (fun r => (Registry.prepare r).toOption.map (fun a => a.2)) =
        some (0, 1)
    ∧ c1_reg3.bind (fun r => r.get 0 0) =
        some (Except.error (InvalidId.WrongEpoch 0 1 0))
    ∧ c1_reg3.bind (fun r => r.get 0 1) = some (Except.ok "B") := by
  refine ⟨?_, rfl, rfl, rfl, rfl, rfl, rfl⟩
  intro T s i e
  by_cases hb : s.max_index ≤ i
  · have hnl : ¬ i < s.max_index := by omega
    simp [Storage.get, Storage.raw_refs, hb, hnl]
  · have hl : i < s.max_index := by omega
    rcases hblk : s.blocks (i / STORAGE_BLOCK_SIZE) with _ | b
    · simp [Storage.get, Storage.raw_refs, hb, hblk,
        Storage.slotStatus, Storage.slotData]
    · rcases hst : b.status (i % STORAGE_BLOCK_SIZE) with _ | stored | ⟨stored, msg⟩
      · simp [Storage.get, Storage.raw_refs, hb, hblk, hst, hl,
          Storage.slotStatus, Storage.slotData]
      · by_cases he : e = stored
        · subst he
          rcases hd : b.data (i % STORAGE_BLOCK_SIZE) with _ | v
          · simp [Storage.get, Storage.raw_refs, hb, hblk, hst, hd, hl,
              Storage.slotStatus, Storage.slotData]
          · simp [Storage.get, Storage.raw_refs, hb, hblk, hst, hd, hl,
              Storage.slotStatus, Storage.slotData]
        · simp [Storage.get, Storage.raw_refs, hb, hblk, hst, hl, he,
            Storage.slotStatus, Storage.slotData]
          intro v hse
          exact absurd hse.symm he
      · by_cases he : e = stored
        · subst he
          simp [Storage.get, Storage.raw_refs, hb, hblk, hst, hl,
            Storage.slotStatus, Storage.slotData]
        · simp [Storage.get, Storage.raw_refs, hb, hblk, hst, hl, he,
            Storage.slotStatus, Storage.slotData]

/-- Witness for C1: the classification applied to a concrete storage whose
slot 0 is `Occupied(0)` holding `"A"`. -/
theorem c1_witness : c1_wit_s.get 0 0 = some (Except.ok "A") :=
  ((c1_get_epoch_classification.1 String c1_wit_s 0 0).1 "A").mpr
    ⟨by decide, by decide, by decide⟩

end WgpuCore

namespace WgpuCore

/-- Claim C2 (code behaviour at the failing input): after
`assign_error("device lost")` on reservation (0,0), `get(0,0)` does
report `ResourceInError("device lost")`, but `unregister(0,0)` hits the
`assert_eq!(old_status, Occupied(epoch))` inside `Storage::free` — the
poisoned slot's status is `Error(0, …)` — and aborts (`none`) instead of
returning normally as the claim states. -/
theorem c2_error_slot_unregister_aborts :
    c2_reg1.bind (fun r => r.get 0 0) =
      some (Except.error (InvalidId.ResourceInError 0 "device lost"))
    ∧ c2_reg1.bind (fun r => r.unregister 0 0) = none :=
  ⟨rfl, rfl⟩

/-- Counterexample to claim C3 as stated: calling `use_at 5` then
`use_at 3` leaves `life_count` at `3`, the most recently recorded index,
not at the highest recorded index `5`. -/
theorem c3_counterexample_life_count_not_max :
    ((((LifeGuard.new RcHeap.empty "r").1.use_at 5).1.use_at 3).1.life_count = 3)
    ∧ ¬ ((((LifeGuard.new RcHeap.empty "r").1.use_at 5).1.use_at 3).1.life_count
          = 5) :=
  ⟨rfl, by decide⟩

/-- `run_use_at` leaves `submission_index` at the last recorded value. -/
theorem run_use_at_life_count : ∀ (l : List Nat) (lg : LifeGuard),
    (lg.run_use_at l).life_count = l.foldl (fun _ x => x) lg.submission_index := by
  intro l
  induction l with
  | nil => intro lg; rfl
  | cons x t ih =>
      intro lg
      show ((lg.use_at x).1.run_use_at t).life_count = _
      rw [ih]
      rfl

/-- Claim C3 (amended): after any sequence of `use_at` calls,
`life_count` returns the most recently recorded submission index (the
initial value if none was recorded) — `use_at` overwrites the stored
index rather than taking a maximum — and each `use_at(s)` call records
`s` and returns `true` exactly when the user's `RefCount` reference is
still held at that moment. -/
theorem c3_life_count_last_recorded : ∀ (lg : LifeGuard) (l : List Nat) (s : Nat),
    (lg.run_use_at l).life_count = l.foldl (fun _ x => x) lg.submission_index
    ∧ (lg.use_at s).2 = lg.ref_count.isSome
    ∧ (lg.use_at s).1.submission_index = s
    ∧ (lg.use_at s).1.ref_count = lg.ref_count :=
  fun lg l _ => ⟨run_use_at_life_count l lg, rfl, rfl, rfl⟩

/-- Claim C4: with the high-water mark at the ceiling (256 blocks × 32
slots = 8192), ensuring capacity for index 8192 aborts with the
"Too many resources allocated" panic; for any index strictly below 8192
`ensure_index` never aborts for that reason; and any successful
`ensure_index` leaves the status and contents of every already-published
slot unchanged. -/
theorem c4_capacity_ceiling : ∀ (T : Type) (s : Storage T),
    (s.max_index = 8192 →
      Storage.ensure_index s 8192 = Except.error StoragePanic.tooManyResources)
    ∧ (∀ index, index < 8192 →
        Storage.ensure_index s index ≠ Except.error StoragePanic.tooManyResources)
    ∧ (∀ index s', Storage.ensure_index s index = Except.ok s' →
        ∀ i, i < s.max_index →
          s'.slotStatus i = s.slotStatus i ∧ s'.slotData i = s.slotData i) := by
  intro T s
  refine ⟨?_, ?_, ?_⟩
  · intro h
    unfold Storage.ensure_index STORAGE_BLOCK_SIZE
    rw [h]
    norm_num
  · intro index hidx
    unfold Storage.ensure_index STORAGE_BLOCK_SIZE
    by_cases h1 : index < s.max_index
    · simp [h1]
    · simp only [h1, if_false]
      by_cases h2 : index = s.max_index
      · have hblock : ¬ (256 ≤ s.max_index / 32) := by omega
        simp [h2, hblock]
      · simp [h2]
  · intro index s' hok i hi
    unfold Storage.ensure_index STORAGE_BLOCK_SIZE at hok
    by_cases h1 : index < s.max_index
    · simp [h1] at hok
      rw [← hok]
      exact ⟨rfl, rfl⟩
    · simp only [h1, if_false] at hok
      by_cases h2 : index = s.max_index
      · simp only [h2, if_neg (by simp : ¬ (s.max_index ≠ s.max_index))] at hok
        by_cases h3 : 256 ≤ s.max_index / 32
        · simp [h3] at hok
        · simp only [h3, if_false] at hok
          rw [Except.ok.injEq] at hok
          subst hok
          by_cases hL : Nat.land ((s.max_index + 31) % 2 ^ 32) (2 ^ 32 - 32) ≤ s.max_index
          · have hmlt : s.max_index < 8192 := by omega
            have hmod := allocated_length_le_imp s.max_index hmlt hL
            have hne : i / 32 ≠ s.max_index / 32 := by omega
            have hL' : ((s.max_index + 31) % 4294967296).land 4294967264 ≤ s.max_index := hL
            simp only [Storage.slotStatus, Storage.slotData, STORAGE_BLOCK_SIZE]
            simp [hL', Function.update_noteq hne]
          · simp only [Storage.slotStatus, Storage.slotData, STORAGE_BLOCK_SIZE]
            rw [if_neg hL]
            exact ⟨rfl, rfl⟩
      · simp [h2] at hok

/-- Witness for C4: the abort at the ceiling, a non-abort below it, and an
unchanged published slot across a successful growth step. -/
theorem c4_witness :
    Storage.ensure_index c4_wit_s8192 8192 =
      Except.error StoragePanic.tooManyResources
    ∧ Storage.ensure_index c4_wit_s1 0 ≠
        Except.error StoragePanic.tooManyResources
    ∧ (c4_wit_s2.slotStatus 0 = c4_wit_s1.slotStatus 0 ∧
       c4_wit_s2.slotData 0 = c4_wit_s1.slotData 0) :=
  ⟨(c4_capacity_ceiling Unit c4_wit_s8192).1 rfl,
   (c4_capacity_ceiling Unit c4_wit_s1).2.1 0 (by decide),
   (c4_capacity_ceiling Unit c4_wit_s1).2.2 1 c4_wit_s2 (by rfl) 0 (by decide)⟩

end WgpuCore

namespace WgpuCore

/-- Running a valid clone/drop workload from a cell holding `live` (with
`live` live handles) succeeds, leaves the shared counter equal to the
number of remaining live handles, frees the backing cell exactly when the
last handle is dropped, and touches no other heap cell. -/
theorem rcRun_spec : ∀ (ops : List RcOp) (h : RcHeap) (r live frees : Nat),
    0 < live → h.mem r = some live → rcValid live ops = true →
    ∃ h', rcRun h r frees ops =
        some (h', frees + (if rcLiveAfter live ops = 0 then 1 else 0)) ∧
      h'.mem r = (if rcLiveAfter live ops = 0 then none
                  else some (rcLiveAfter live ops)) ∧
      ∀ a, a ≠ r → h'.mem a = h.mem a := by
  intro ops
  induction ops with
  | nil =>
      intro h r live frees hpos hmem _
      refine ⟨h, ?_, ?_, fun a _ => rfl⟩
      · simp [rcRun, rcLiveAfter, Nat.pos_iff_ne_zero.mp hpos]
      · simp [rcLiveAfter, Nat.pos_iff_ne_zero.mp hpos, hmem]
  | cons op t ih =>
      intro h r live frees hpos hmem hvalid
      cases op with
      | clone =>
          unfold rcValid at hvalid
          simp only [Bool.and_eq_true, decide_eq_true_eq] at hvalid
          obtain ⟨⟨hpos', hmax⟩, hvalid'⟩ := hvalid
          have hstep : RefCount.clone h r =
              some ({ h with mem := Function.update h.mem r (some (live + 1)) },
                r) := by
            unfold RefCount.clone
            rw [hmem]
            simp [hmax]
          obtain ⟨h', hrun, hmemr, hother⟩ :=
            ih { h with mem := Function.update h.mem r (some (live + 1)) } r
              (live + 1) frees (by omega) (by simp [Function.update_same]) hvalid'
          refine ⟨h', ?_, ?_, ?_⟩
          · simpa [rcRun, hstep, rcLiveAfter] using hrun
          · simpa [rcLiveAfter] using hmemr
          · intro a ha
            rw [hother a ha]
            simp [Function.update_noteq ha]
      | drop =>
          unfold rcValid at hvalid
          simp only [Bool.and_eq_true, decide_eq_true_eq] at hvalid
          obtain ⟨hpos', hvalid'⟩ := hvalid
          by_cases hone : live = 1
          · subst hone
            have hstep : RefCount.drop h r =
                some ({ h with mem := Function.update h.mem r none }, true) := by
              unfold RefCount.drop
              rw [hmem]
              simp
            cases t with
            | nil =>
                refine ⟨{ h with mem := Function.update h.mem r none },
                  ?_, ?_, ?_⟩
                · simp [rcRun, hstep, rcLiveAfter]
                · simp [rcLiveAfter, Function.update_same]
                · intro a ha
                  simp [Function.update_noteq ha]
            | cons op' t' =>
                exfalso
                cases op' <;> simp [rcValid] at hvalid'
          · have hgt : 1 < live := by omega
            have hstep : RefCount.drop h r =
                some ({ h with mem := Function.update h.mem r (some (live - 1)) },
                  false) := by
              unfold RefCount.drop
              rw [hmem]
              simp [hone]
            obtain ⟨h', hrun, hmemr, hother⟩ :=
              ih { h with mem := Function.update h.mem r (some (live - 1)) } r
                (live - 1) frees (by omega) (by simp [Function.update_same])
                hvalid'
            refine ⟨h', ?_, ?_, ?_⟩
            · simpa [rcRun, hstep, rcLiveAfter] using hrun
            · simpa [rcLiveAfter] using hmemr
            · intro a ha
              rw [hother a ha]
              simp [Function.update_noteq ha]

/-- Claim C5: starting from `RefCount::new` (count 1, one live handle),
every valid interleaving of clone/drop pairs runs to completion with the
shared counter equal, at the end (and hence, by quantifying over
prefixes, at every intermediate point), to the number of live handles;
the backing cell is freed exactly once — precisely when the count
reaches zero — and no other heap cell is ever touched or leaked. -/
theorem c5_refcount_clone_drop : ∀ ops : List RcOp, rcValid 1 ops = true →
    ∃ h' frees,
      rcRun (RefCount.new RcHeap.empty).2 (RefCount.new RcHeap.empty).1 0 ops =
        some (h', frees) ∧
      h'.mem (RefCount.new RcHeap.empty).1 =
        (if rcLiveAfter 1 ops = 0 then none else some (rcLiveAfter 1 ops)) ∧
      frees = (if rcLiveAfter 1 ops = 0 then 1 else 0) ∧
      (∀ a, a ≠ (RefCount.new RcHeap.empty).1 → h'.mem a = none) := by
  intro ops hvalid
  obtain ⟨h', hrun, hmemr, hother⟩ :=
    rcRun_spec ops (RefCount.new RcHeap.empty).2 (RefCount.new RcHeap.empty).1
      1 0 (by omega) (by simp [RefCount.new, RcHeap.empty, Function.update_same])
      hvalid
  simp only [Nat.zero_add] at hrun
  refine ⟨h', _, hrun, hmemr, rfl, ?_⟩
  intro a ha
  have ha0 : a ≠ 0 := ha
  rw [hother a ha]
  simp [RefCount.new, RcHeap.empty, Function.update_noteq ha0]

/-- Witness for C5: the workload clone–drop–drop is valid and runs to a
heap whose cell is freed exactly once. -/
theorem c5_witness :
    rcValid 1 [RcOp.clone, RcOp.drop, RcOp.drop] = true ∧
    ∃ h' frees,
      rcRun (RefCount.new RcHeap.empty).2 (RefCount.new RcHeap.empty).1 0
          [RcOp.clone, RcOp.drop, RcOp.drop] = some (h', frees) ∧
      h'.mem (RefCount.new RcHeap.empty).1 =
        (if rcLiveAfter 1 [RcOp.clone, RcOp.drop, RcOp.drop] = 0 then none
         else some (rcLiveAfter 1 [RcOp.clone, RcOp.drop, RcOp.drop])) ∧
      frees = (if rcLiveAfter 1 [RcOp.clone, RcOp.drop, RcOp.drop] = 0
               then 1 else 0) ∧
      (∀ a, a ≠ (RefCount.new RcHeap.empty).1 → h'.mem a = none) :=
  ⟨by decide, c5_refcount_clone_drop [RcOp.clone, RcOp.drop, RcOp.drop]
    (by decide)⟩

end WgpuCore

namespace WgpuCore

/-- Claim C6: committing a reserved identifier with `assign(v)` (a `fill`
with `Ok v` on a published slot of a well-formed storage) succeeds, and
an immediate `get` with the same index and epoch returns `Ok v`, the slot
now being `Occupied` at the reservation's epoch. -/
theorem c6_assign_get_roundtrip : ∀ (T : Type) (s : Storage T) (i e : Nat) (v : T),
    s.WF → i < s.max_index →
    ∃ s', s.fill i e (Except.ok v) = some s' ∧
      s'.get i e = some (Except.ok v) ∧
      s'.slotStatus i = some (ElementStatus.Occupied e) := by
  intro T s i e v hwf hi
  have hb : ¬ s.max_index ≤ i := by omega
  obtain ⟨b, hblk⟩ := hwf.block_some hi
  refine ⟨s.updateSlot i (fun blk =>
    { data := Function.update blk.data (i % STORAGE_BLOCK_SIZE) (some v),
      status := Function.update blk.status (i % STORAGE_BLOCK_SIZE)
        (ElementStatus.Occupied e) }), ?_, ?_, ?_⟩
  · simp [Storage.fill, Storage.raw_refs, hb, hblk]
  · simp [Storage.get, Storage.raw_refs, Storage.updateSlot, hb, hblk]
  · simp [Storage.slotStatus, Storage.updateSlot, hblk]

/-- Witness for C6: the round trip on a concrete storage with one
published vacant slot. -/
theorem c6_witness :
    ∃ s', c6_wit_s.fill 0 0 (Except.ok "A") = some s' ∧
      s'.get 0 0 = some (Except.ok "A") ∧
      s'.slotStatus 0 = some (ElementStatus.Occupied 0) :=
  c6_assign_get_roundtrip String c6_wit_s 0 0 "A" (by decide) (by decide)

/-- Claim C7: cloning a live `RefCount` aborts exactly when the count
observed before the increment is at or above the `2^24` ceiling; below
the ceiling the clone succeeds, the returned handle is the same shared
counter cell, the count has grown by exactly one, and no other cell is
touched. -/
theorem c7_clone_ceiling : ∀ (h : RcHeap) (r c : Nat), h.mem r = some c →
    (RefCount.clone h r = none ↔ RefCount.MAX ≤ c)
    ∧ (∀ h' r', RefCount.clone h r = some (h', r') →
        r' = r ∧ h'.mem r = some (c + 1) ∧
        ∀ a, a ≠ r → h'.mem a = h.mem a) := by
  intro h r c hc
  constructor
  · unfold RefCount.clone
    rw [hc]
    dsimp only
    by_cases hlt : c < RefCount.MAX
    · rw [if_pos hlt]
      simp only [reduceCtorEq, false_iff]
      omega
    · rw [if_neg hlt]
      simp only [true_iff]
      omega
  · intro h' r' hclone
    unfold RefCount.clone at hclone
    rw [hc] at hclone
    by_cases hlt : c < RefCount.MAX
    · simp [hlt] at hclone
      obtain ⟨hh, hr⟩ := hclone
      subst hh
      subst hr
      refine ⟨rfl, ?_, ?_⟩
      · simp [Function.update_same]
      · intro a ha
        simp [Function.update_noteq ha]
    · simp [hlt] at hclone

/-- Witness for C7: a successful clone of a one-cell heap observes the
same cell with the count bumped from 1 to 2. -/
theorem c7_witness :
    0 = 0 ∧ c7_wit_h2.mem 0 = some 2 ∧
    ∀ a, a ≠ 0 → c7_wit_h2.mem a = c7_wit_h.mem a :=
  (c7_clone_ceiling c7_wit_h 0 1 rfl).2 c7_wit_h2 0 rfl

/-- Any sequence of `LifeGuard` operations preserves a released (null)
user reference. -/
theorem runOps_ref_count_none : ∀ (ops : List LgOp) (lg : LifeGuard),
    lg.ref_count = none → (lg.runOps ops).ref_count = none := by
  intro ops
  induction ops with
  | nil => intro lg h; exact h
  | cons op t ih =>
      intro lg h
      cases op with
      | useAt x =>
          show ((lg.use_at x).1.runOps t).ref_count = none
          exact ih _ h
      | take =>
          show ((lg.take).2.runOps t).ref_count = none
          exact ih _ rfl

/-- Claim C8: a `LifeGuard` holds at most one live user reference (the
optional `ref_count` field); once it has been taken, no later sequence of
operations re-establishes it — from then on `use_at` always returns
`false` and `add_ref` has no reference to return (the `unwrap` aborts). -/
theorem c8_release_is_permanent : ∀ (lg : LifeGuard) (ops : List LgOp),
    ((lg.take).2.runOps ops).ref_count = none
    ∧ (∀ x, (((lg.take).2.runOps ops).use_at x).2 = false)
    ∧ ((lg.take).2.runOps ops).add_ref = none := by
  intro lg ops
  have h := runOps_ref_count_none ops (lg.take).2 rfl
  refine ⟨h, ?_, h⟩
  intro x
  show ((lg.take).2.runOps ops).ref_count.isSome = false
  rw [h]
  rfl

/-- Claim C9: on a well-formed storage, `contains` never aborts and
returns `true` exactly when `get` returns `Ok`; in particular it returns
`false` on a poisoned published slot whose stored epoch matches the
presented one, where `get` reports `ResourceInError` rather than
`Vacant`. -/
theorem c9_contains_iff_get_ok : ∀ (T : Type) (s : Storage T) (i e : Nat),
    s.WF →
    (∃ bo, s.contains i e = some bo ∧
      (bo = true ↔ ∃ v, s.get i e = some (Except.ok v)))
    ∧ (∀ m, i < s.max_index →
        s.slotStatus i = some (ElementStatus.Error e m) →
        s.contains i e = some false ∧
        s.get i e = some (Except.error (InvalidId.ResourceInError i m))) := by
  intro T s i e hwf
  constructor
  · by_cases hb : s.max_index ≤ i
    · refine ⟨false, ?_, ?_⟩
      · simp [Storage.contains, Storage.raw_refs, hb]
      · simp [Storage.get, Storage.raw_refs, hb]
    · have hl : i < s.max_index := by omega
      obtain ⟨b, hblk⟩ := hwf.block_some hl
      rcases hst : b.status (i % STORAGE_BLOCK_SIZE) with _ | stored | ⟨stored, msg⟩
      · refine ⟨false, ?_, ?_⟩
        · simp [Storage.contains, Storage.raw_refs, hb, hblk, hst]
        · simp [Storage.get, Storage.raw_refs, hb, hblk, hst]
      · by_cases he : stored = e
        · subst he
          obtain ⟨v, hd⟩ := hwf.data_some hl hblk hst
          refine ⟨true, ?_, ?_⟩
          · simp [Storage.contains, Storage.raw_refs, hb, hblk, hst]
          · simp [Storage.get, Storage.raw_refs, hb, hblk, hst, hd]
        · refine ⟨false, ?_, ?_⟩
          · simp [Storage.contains, Storage.raw_refs, hb, hblk, hst, he]
          · simp [Storage.get, Storage.raw_refs, hb, hblk, hst, Ne.symm he]
      · refine ⟨false, ?_, ?_⟩
        · simp [Storage.contains, Storage.raw_refs, hb, hblk, hst]
        · by_cases he : e = stored
          · subst he
            simp [Storage.get, Storage.raw_refs, hb, hblk, hst]
          · simp [Storage.get, Storage.raw_refs, hb, hblk, hst, he]
  · intro m hl hss
    have hb : ¬ s.max_index ≤ i := by omega
    obtain ⟨b, hblk⟩ := hwf.block_some hl
    unfold Storage.slotStatus at hss
    rw [hblk] at hss
    simp only [Option.map_some', Option.some.injEq] at hss
    constructor
    · simp [Storage.contains, Storage.raw_refs, hb, hblk, hss]
    · simp [Storage.get, Storage.raw_refs, hb, hblk, hss]

/-- Witness for C9: on the poisoned slot `(0, 0)` of a concrete storage,
`contains` is `false` while `get` reports the stored message. -/
theorem c9_witness :
    c9_wit_s.contains 0 0 = some false ∧
    c9_wit_s.get 0 0 = some (Except.error (InvalidId.ResourceInError 0 "boom")) :=
  (c9_contains_iff_get_ok String c9_wit_s 0 0 (by decide)).2 "boom"
    (by decide) (by decide)

/-- Claim C10: on a published slot whose status is `Error(old, m)`, the
epoch check takes precedence — presenting `e ≠ old` yields
`WrongEpoch{old, new := e}`, and the poisoning message is surfaced only
when `e = old`. -/
theorem c10_wrong_epoch_precedes_error :
    ∀ (T : Type) (s : Storage T) (i e old : Nat) (m : String),
    i < s.max_index → s.slotStatus i = some (ElementStatus.Error old m) →
    (e ≠ old → s.get i e = some (Except.error (InvalidId.WrongEpoch i old e)))
    ∧ (e = old → s.get i e = some (Except.error (InvalidId.ResourceInError i m))) := by
  intro T s i e old m hl hss
  have hb : ¬ s.max_index ≤ i := by omega
  unfold Storage.slotStatus at hss
  rcases hblk : s.blocks (i / STORAGE_BLOCK_SIZE) with _ | b
  · rw [hblk] at hss
    simp at hss
  · rw [hblk] at hss
    simp only [Option.map_some', Option.some.injEq] at hss
    constructor
    · intro hne
      simp [Storage.get, Storage.raw_refs, hb, hblk, hss, hne]
    · intro heq
      subst heq
      simp [Storage.get, Storage.raw_refs, hb, hblk, hss]

/-- Witness for C10: on a concrete poisoned slot with stored epoch 0,
presenting epoch 1 yields `WrongEpoch{old 0, new 1}` and presenting
epoch 0 yields `ResourceInError("boom")`. -/
theorem c10_witness :
    c10_wit_s.get 0 1 = some (Except.error (InvalidId.WrongEpoch 0 0 1)) ∧
    c10_wit_s.get 0 0 = some (Except.error (InvalidId.ResourceInError 0 "boom")) :=
  ⟨(c10_wrong_epoch_precedes_error String c10_wit_s 0 1 0 "boom"
      (by decide) (by decide)).1 (by decide),
   (c10_wrong_epoch_precedes_error String c10_wit_s 0 0 0 "boom"
      (by decide) (by decide)).2 rfl⟩

end WgpuCore
